import Mathlib

/-!
Shallow embedding of the metrics aggregation and alerting pipeline
(app/utils/metrics.py, app/utils/metric_alerts.py, and the caching helper
of app/agents/task_management_agent.py).

Modelling conventions:
* Python floats are modelled as exact rationals.
* Datetimes are modelled as an integer count of seconds; a timedelta value
  d.days is the floor division of the second difference by 86400, a
  datetime value t.hour is (t / 3600) mod 24.
* Sprint start and end dates are modelled at day granularity as integer
  day numbers, so (end_date - start_date).days is end_date - start_date
  and the ISO string of a day is represented by the day number itself.
* Dictionaries with a fixed key set are structures of optional fields; a
  bracket access that can raise KeyError is modelled in the Except monad.
* The database session is an immutable snapshot record; each SQL query of
  the source becomes a filter, find, or stable sort over its lists.
-/

namespace Management

inductive TaskStatus where
  | backlog
  | todo
  | in_progress
  | in_review
  | blocked
  | done
deriving DecidableEq, Repr

inductive SprintStatus where
  | planning
  | active
  | completed
  | cancelled
deriving DecidableEq, Repr

/-! ## Database snapshot model (app/models/database) -/

/-- One entry of a task history audit trail: {field, old_value, new_value,
timestamp}. -/
structure HistoryEntry where
  field : String
  old_value : String
  new_value : String
  timestamp : Int
deriving DecidableEq, Repr

/-- The free-form task metrics JSON map, restricted to the keys the
metrics module reads; an absent key is none. -/
structure TaskMetrics where
  review_time : Option ℚ
  bug_count : Option ℚ
  test_coverage : Option ℚ
  review_comments : Option (List String)
deriving DecidableEq, Repr

structure Task where
  id : String
  team_id : String
  sprint_id : Option String
  assignee_id : Option String
  status : TaskStatus
  type : String
  priority : String
  story_points : ℚ
  dependencies : List String
  metrics : TaskMetrics
  history : List HistoryEntry
  created_at : Int
  updated_at : Int
deriving DecidableEq, Repr

structure Sprint where
  id : String
  team_id : String
  status : SprintStatus
  start_date : Int
  end_date : Int
  planned_points : ℚ
  completed_points : ℚ
  velocity : ℚ
deriving DecidableEq, Repr

structure Team where
  id : String
  member_ids : List String
deriving DecidableEq, Repr

/-- An immutable snapshot of the relational store, list order standing for
the row order a query without ORDER BY returns. -/
structure DB where
  tasks : List Task
  sprints : List Sprint
  teams : List Team
deriving Repr

/-- select(DBTask).where(DBTask.id == task_id) with scalar_one_or_none. -/
def findTask (db : DB) (task_id : String) : Option Task :=
  db.tasks.find? (fun t => t.id == task_id)

/-- select(DBSprint).where(DBSprint.id == sprint_id) with
scalar_one_or_none. -/
def findSprint (db : DB) (sprint_id : String) : Option Sprint :=
  db.sprints.find? (fun s => s.id == sprint_id)

/-- select(Team).where(Team.id == team_id) with scalar_one_or_none. -/
def findTeam (db : DB) (team_id : String) : Option Team :=
  db.teams.find? (fun tm => tm.id == team_id)

/-- The sprint.tasks relationship: tasks whose sprint_id is this sprint. -/
def sprintTasks (db : DB) (sprint_id : String) : List Task :=
  db.tasks.filter (fun t => t.sprint_id == some sprint_id)

/-- The team.sprints relationship: sprints whose team_id is this team. -/
def teamSprints (db : DB) (team_id : String) : List Sprint :=
  db.sprints.filter (fun s => s.team_id == team_id)

/-! ## Per-task calculators (app/utils/metrics.py) -/

/-- The complexity variable of calculate_task_complexity before the final
clamp: (story_points/13)*50 + (dependencies/5)*25 + (review_comments/10)*25
with dependencies = len(task.dependencies or []) and review_comments =
len(task.metrics.get("review_comments", [])). -/
def task_complexity_raw (task : Task) : ℚ :=
  (task.story_points / 13) * 50 +
    ((task.dependencies.length : ℚ) / 5) * 25 +
    (((task.metrics.review_comments.getD []).length : ℚ) / 10) * 25

/-- calculate_task_complexity: 0.0 for a missing task, otherwise
min(100.0, complexity). -/
def calculate_task_complexity (db : DB) (task_id : String) : ℚ :=
  match findTask db task_id with
  | none => 0
  | some task => min 100 (task_complexity_raw task)

/-- The status_changes list of calculate_rework_rate: history entries
with field "status" and new_value TaskStatus.IN_PROGRESS.value. -/
def status_to_in_progress_count (task : Task) : Nat :=
  (task.history.filter
    (fun h => h.field == "status" && h.new_value == "in_progress")).length

/-- calculate_rework_rate: 0.0 for a missing task, otherwise
max(0, len(status_changes) - 1). -/
def calculate_rework_rate (db : DB) (task_id : String) : ℚ :=
  match findTask db task_id with
  | none => 0
  | some task => ((max 0 ((status_to_in_progress_count task : ℤ) - 1) : ℤ) : ℚ)

/-- calculate_completion_rate: 0.0 when the sprint is missing or its
planned_points is falsy (0); otherwise completed/planned*100. -/
def calculate_completion_rate (db : DB) (sprint_id : String) : ℚ :=
  match findSprint db sprint_id with
  | none => 0
  | some sprint =>
    if sprint.planned_points = 0 then 0
    else sprint.completed_points / sprint.planned_points * 100

/-! ## Burndown generation (generate_burndown_data) -/

/-- The inclusive day-by-day range walked by the while loop of
generate_burndown_data, from start_date up to and including end_date. -/
def dateRange (s e : Int) : List Int :=
  (List.range (e - s + 1).toNat).map (fun (i : ℕ) => s + (i : Int))

/-- Burndown output; dates holds the day numbers whose ISO strings the
source emits. -/
structure BurndownData where
  ideal : List ℚ
  actual : List ℚ
  dates : List Int
deriving Repr

/-- generate_burndown_data: empty series for a missing sprint; otherwise
duration = (end_date - start_date).days + 1, an ideal line
total * (1 - i/duration) for i in range(duration + 1), and one actual
remaining-points entry per day of the sprint, subtracting story points of
done sprint tasks whose completion day is on or before that day. -/
def generate_burndown_data (db : DB) (sprint_id : String) : BurndownData :=
  match findSprint db sprint_id with
  | none => { ideal := [], actual := [], dates := [] }
  | some sprint =>
    let duration : Int := sprint.end_date - sprint.start_date + 1
    let total_points := sprint.planned_points
    let ideal := (List.range (duration + 1).toNat).map
      (fun (i : ℕ) => total_points * (1 - (i : ℚ) / (duration : ℚ)))
    let days := dateRange sprint.start_date sprint.end_date
    let actual := days.map (fun d =>
      let completed_points := (((sprintTasks db sprint.id).filter
        (fun t => t.status == TaskStatus.done &&
          decide (Int.fdiv t.updated_at 86400 ≤ d))).map
            (fun t => t.story_points)).sum
      total_points - completed_points)
    { ideal := ideal, actual := actual, dates := days }

/-! ## Efficiency metrics (calculate_efficiency_metrics) -/

/-- The done tasks of a team, as queried at the top of
calculate_efficiency_metrics. -/
def doneTeamTasks (db : DB) (team_id : String) : List Task :=
  db.tasks.filter (fun t => t.team_id == team_id && t.status == TaskStatus.done)

structure EfficiencyMetrics where
  cycle_time : ℚ
  throughput : ℚ
  work_in_progress : ℚ
deriving DecidableEq, Repr

/-- min(tasks, key=created_at): the first task with minimal created_at. -/
def minByCreated (t : Task) (ts : List Task) : Task :=
  ts.foldl (fun acc x => if x.created_at < acc.created_at then x else acc) t

/-- max(tasks, key=updated_at): the first task with maximal updated_at. -/
def maxByUpdated (t : Task) (ts : List Task) : Task :=
  ts.foldl (fun acc x => if acc.updated_at < x.updated_at then x else acc) t

/-- (latest_task.updated_at - earliest_task.created_at).days of
calculate_efficiency_metrics, 0 when the team has no done tasks; the
timedelta days attribute floors the second difference. -/
def effDays (db : DB) (team_id : String) : Int :=
  match doneTeamTasks db team_id with
  | [] => 0
  | t :: ts =>
    Int.fdiv ((maxByUpdated t ts).updated_at - (minByCreated t ts).created_at) 86400

/-- total_weeks = (days / 7) or 1: a zero quotient is falsy and is
replaced by 1. -/
def effWeeks (db : DB) (team_id : String) : ℚ :=
  if (effDays db team_id : ℚ) / 7 = 0 then 1 else (effDays db team_id : ℚ) / 7

/-- calculate_efficiency_metrics: zero defaults with no done tasks;
otherwise mean cycle time in hours, throughput = task count / total
weeks, and the live count of in_progress team tasks. -/
def calculate_efficiency_metrics (db : DB) (team_id : String) : EfficiencyMetrics :=
  match doneTeamTasks db team_id with
  | [] => { cycle_time := 0, throughput := 0, work_in_progress := 0 }
  | t :: ts =>
    let cycle_times := (t :: ts).map
      (fun x => ((x.updated_at - x.created_at : ℤ) : ℚ) / 3600)
    let avg_cycle_time := cycle_times.sum / (cycle_times.length : ℚ)
    let throughput := (((t :: ts).length : ℕ) : ℚ) / effWeeks db team_id
    let wip := (db.tasks.filter
      (fun x => x.team_id == team_id && x.status == TaskStatus.in_progress)).length
    { cycle_time := avg_cycle_time, throughput := throughput
      work_in_progress := (wip : ℚ) }

/-! ## Team health (calculate_team_health) -/

structure TeamHealth where
  member_satisfaction : ℚ
  sprint_completion_rate : ℚ
  team_stability : ℚ
deriving DecidableEq, Repr

/-- The completion_rate variable of calculate_team_health: mean over the
completed team sprints of completed/planned (0 for a sprint whose
planned_points is falsy), 0.0 when there are none. -/
def sprintCompletionRatio (db : DB) (team : Team) : ℚ :=
  let completed := (teamSprints db team.id).filter
    (fun s => s.status == SprintStatus.completed)
  if completed = [] then 0
  else
    (completed.map (fun s =>
      if s.planned_points = 0 then 0
      else s.completed_points / s.planned_points)).sum / (completed.length : ℚ)

/-- calculate_team_health: zero output for a missing team; otherwise
stability = current_members / total_members with total_members set to
current_members (falling back to 1.0 when that count is falsy), and
satisfaction = completion_rate * 0.7 + stability * 0.3, both scaled by
100. -/
def calculate_team_health (db : DB) (team_id : String) : TeamHealth :=
  match findTeam db team_id with
  | none =>
    { member_satisfaction := 0, sprint_completion_rate := 0, team_stability := 0 }
  | some team =>
    let completion_rate := sprintCompletionRatio db team
    let current_members : ℚ := (team.member_ids.length : ℚ)
    let total_members : ℚ := current_members
    let stability := if total_members ≠ 0 then current_members / total_members else 1
    let satisfaction := completion_rate * 0.7 + stability * 0.3
    { member_satisfaction := satisfaction * 100
      sprint_completion_rate := completion_rate * 100
      team_stability := stability * 100 }

/-! ## Velocity stability (calculate_velocity_stability) -/

/-- Stable insertion of a sprint into a list sorted by descending
end_date, keeping an equal-key element before later ones. -/
def insertByEndDesc (s : Sprint) : List Sprint → List Sprint
  | [] => [s]
  | t :: ts => if t.end_date ≤ s.end_date then s :: t :: ts else t :: insertByEndDesc s ts

/-- ORDER BY end_date DESC as a stable sort. -/
def sortByEndDesc : List Sprint → List Sprint
  | [] => []
  | s :: ss => insertByEndDesc s (sortByEndDesc ss)

/-- The query of calculate_velocity_stability: completed team sprints by
descending end date, limited to the last 10. -/
def completedSprintsWindow (db : DB) (team_id : String) : List Sprint :=
  (sortByEndDesc (db.sprints.filter
    (fun s => s.team_id == team_id && s.status == SprintStatus.completed))).take 10

/-- The velocities list of calculate_velocity_stability: completed_points
of the window, newest sprint first. -/
def velocitiesWindow (db : DB) (team_id : String) : List ℚ :=
  (completedSprintsWindow db team_id).map (fun s => s.completed_points)

/-- Output of calculate_velocity_stability. The variability of the source
is std(velocities)/mean*100 with an irrational square root; it is carried
here as its square, variability_sq = variance/mean^2 * 10000, which
determines it (variability = the nonnegative square root). -/
structure VelocityStability where
  average_velocity : ℚ
  variability_sq : ℚ
  trend : ℚ
deriving DecidableEq, Repr

/-- calculate_velocity_stability: zero defaults with no completed
sprints; otherwise the mean velocity, the (squared) coefficient of
variation guarded by mean > 0, and trend =
(velocities[0] - velocities[-1]) / len(velocities) when more than one
sprint is in the window. -/
def calculate_velocity_stability (db : DB) (team_id : String) : VelocityStability :=
  if completedSprintsWindow db team_id = [] then
    { average_velocity := 0, variability_sq := 0, trend := 0 }
  else
    let velocities := velocitiesWindow db team_id
    let avg_velocity := velocities.sum / (velocities.length : ℚ)
    let variability_sq :=
      if 0 < avg_velocity then
        (((velocities.map (fun v => (v - avg_velocity) ^ 2)).sum /
          (velocities.length : ℚ)) / avg_velocity ^ 2) * 10000
      else 0
    let trend :=
      if 1 < velocities.length then
        (velocities.headD 0 - velocities.getLastD 0) / (velocities.length : ℚ)
      else 0
    { average_velocity := avg_velocity, variability_sq := variability_sq
      trend := trend }

/-! ## Remaining calculators used by the metric bundles -/

/-- calculate_velocity: completed sprints of the team, optionally
filtered by end_date bounds (a None bound is falsy and adds no filter);
0.0 with no sprints, else the mean of completed_points. -/
def calculate_velocity (db : DB) (team_id : String)
    (start_date end_date : Option Int) : ℚ :=
  let sprints := db.sprints.filter (fun s =>
    s.team_id == team_id &&
    (match start_date with | none => true | some d => decide (d ≤ s.end_date)) &&
    (match end_date with | none => true | some d => decide (s.end_date ≤ d)) &&
    s.status == SprintStatus.completed)
  if sprints = [] then 0
  else (sprints.map (fun s => s.completed_points)).sum / (sprints.length : ℚ)

/-- Done tasks of a sprint, the query of calculate_quality_score. -/
def doneSprintTasks (db : DB) (sprint_id : String) : List Task :=
  db.tasks.filter
    (fun t => t.sprint_id == some sprint_id && t.status == TaskStatus.done)

/-- calculate_quality_score: 100 - bugs*10 - review_time_sum*0.1 +
mean_test_coverage*0.2, clamped to [0, 100]; 0.0 with no done tasks. -/
def calculate_quality_score (db : DB) (sprint_id : String) : ℚ :=
  match doneSprintTasks db sprint_id with
  | [] => 0
  | t :: ts =>
    let tasks := t :: ts
    let total_bugs : ℚ := ((tasks.filter (fun x => x.type == "bug")).length : ℚ)
    let code_review_time := (tasks.map (fun x => x.metrics.review_time.getD 0)).sum
    let test_coverage :=
      (tasks.map (fun x => x.metrics.test_coverage.getD 0)).sum / (tasks.length : ℚ)
    max 0 (min 100 (100 - total_bugs * 10 - code_review_time * 0.1 + test_coverage * 0.2))

/-- The numeric reading task.metrics.get("review_comments", 0) performed
by calculate_quality_metrics; the stored list value is read through its
length. -/
def reviewCommentsNum (t : Task) : ℚ :=
  match t.metrics.review_comments with
  | none => 0
  | some l => (l.length : ℚ)

structure QualityMetrics where
  bug_rate : ℚ
  code_quality : ℚ
  test_coverage : ℚ
deriving DecidableEq, Repr

/-- calculate_quality_metrics: zero defaults with no done team tasks;
else bug rate in percent, mean of 100 - 2*review_comments clamped to
[0, 100], and mean test coverage. -/
def calculate_quality_metrics (db : DB) (team_id : String) : QualityMetrics :=
  match doneTeamTasks db team_id with
  | [] => { bug_rate := 0, code_quality := 0, test_coverage := 0 }
  | t :: ts =>
    let tasks := t :: ts
    let total_bugs : ℚ := ((tasks.filter (fun x => x.type == "bug")).length : ℚ)
    let bug_rate := total_bugs / (tasks.length : ℚ) * 100
    let code_quality :=
      (tasks.map (fun x => 100 - reviewCommentsNum x * 2)).sum / (tasks.length : ℚ)
    let test_coverage :=
      (tasks.map (fun x => x.metrics.test_coverage.getD 0)).sum / (tasks.length : ℚ)
    { bug_rate := bug_rate, code_quality := max 0 (min 100 code_quality)
      test_coverage := test_coverage }

/-- Stable insertion into a list sorted by ascending end_date. -/
def insertByEndAsc (s : Sprint) : List Sprint → List Sprint
  | [] => [s]
  | t :: ts => if s.end_date ≤ t.end_date then s :: t :: ts else t :: insertByEndAsc s ts

/-- ORDER BY end_date as a stable sort. -/
def sortByEndAsc : List Sprint → List Sprint
  | [] => []
  | s :: ss => insertByEndAsc s (sortByEndAsc ss)

/-- The query of calculate_trends: completed team sprints by ascending
end date. -/
def completedSprintsAsc (db : DB) (team_id : String) : List Sprint :=
  sortByEndAsc (db.sprints.filter
    (fun s => s.team_id == team_id && s.status == SprintStatus.completed))

structure Trends where
  velocity_trend : List ℚ
  quality_trend : List ℚ
  efficiency_trend : List ℚ
deriving DecidableEq, Repr

/-- calculate_trends: the stored velocity field per completed sprint, the
sprint quality score per sprint, and per sprint one efficiency sample
computed from the (sprint-independent) team efficiency metrics. -/
def calculate_trends (db : DB) (team_id : String) : Trends :=
  match completedSprintsAsc db team_id with
  | [] => { velocity_trend := [], quality_trend := [], efficiency_trend := [] }
  | s :: ss =>
    let sprints := s :: ss
    { velocity_trend := sprints.map (fun x => x.velocity)
      quality_trend := sprints.map (fun x => calculate_quality_score db x.id)
      efficiency_trend := sprints.map (fun _ =>
        let m := calculate_efficiency_metrics db team_id
        (m.throughput * 0.4 + (100 - m.cycle_time) * 0.4 +
          (100 - m.work_in_progress) * 0.2) / 100) }

/-- calculate_cycle_time: hours between creation and last update for a
done task, 0.0 for a missing or unfinished task. -/
def calculate_cycle_time (db : DB) (task_id : String) : ℚ :=
  match findTask db task_id with
  | none => 0
  | some task =>
    if task.status = TaskStatus.done then
      ((task.updated_at - task.created_at : ℤ) : ℚ) / 3600
    else 0

/-- calculate_task_quality: 100 - bug_count*10 - review_time*0.1 +
test_coverage*0.2 over the task metrics map (0 defaults), clamped to
[0, 100]; 0.0 for a missing task. -/
def calculate_task_quality (db : DB) (task_id : String) : ℚ :=
  match findTask db task_id with
  | none => 0
  | some task =>
    let review_time := task.metrics.review_time.getD 0
    let bug_count := task.metrics.bug_count.getD 0
    let test_coverage := task.metrics.test_coverage.getD 0
    max 0 (min 100 (100 - bug_count * 10 - review_time * 0.1 + test_coverage * 0.2))

/-- calculate_sprint_velocity: the sprint's completed_points, 0.0 when
missing. -/
def calculate_sprint_velocity (db : DB) (sprint_id : String) : ℚ :=
  match findSprint db sprint_id with
  | none => 0
  | some sprint => sprint.completed_points

/-- The assignee_counts dict of calculate_team_satisfaction, in insertion
order; the key may be None. -/
def assigneeCounts (tasks : List Task) : List (Option String × ℚ) :=
  tasks.foldl (fun acc t =>
    if acc.any (fun p => p.1 == t.assignee_id) then
      acc.map (fun p => if p.1 == t.assignee_id then (p.1, p.2 + 1) else p)
    else acc ++ [(t.assignee_id, 1)]) []

/-- calculate_team_satisfaction: weighted sum of the completion rate, an
overtime penalty (0.5 per done task last updated at hour 18 or later),
and a task-distribution score 100/(1 + variance of tasks per assignee),
clamped to [0, 100]; 0.0 for a missing sprint. -/
def calculate_team_satisfaction (db : DB) (sprint_id : String) : ℚ :=
  match findSprint db sprint_id with
  | none => 0
  | some sprint =>
    let completion_rate := calculate_completion_rate db sprint_id
    let overtime_penalty : ℚ :=
      (1 / 2) * (((sprintTasks db sprint.id).filter (fun t =>
        t.status == TaskStatus.done &&
          decide (18 ≤ (Int.fdiv t.updated_at 3600) % 24))).length : ℚ)
    let counts := assigneeCounts (sprintTasks db sprint.id)
    let distribution_score :=
      if counts = [] then (0 : ℚ)
      else
        let avg_tasks := (counts.map (fun p => p.2)).sum / (counts.length : ℚ)
        let distribution_variance :=
          (counts.map (fun p => (p.2 - avg_tasks) ^ 2)).sum / (counts.length : ℚ)
        100 / (1 + distribution_variance)
    let satisfaction := completion_rate * 0.4 +
      (100 - min (overtime_penalty * 10) 100) * 0.3 + distribution_score * 0.3
    max 0 (min 100 satisfaction)

/-! ## Metric bundle entry points and their cache traces -/

/-- One interaction with the key-value cache store: a read of a key, or a
write of a key with a value and a TTL in seconds. -/
inductive CacheOp (V : Type) where
  | get (key : String)
  | set (key : String) (value : V) (ttl : Nat)
deriving DecidableEq, Repr

/-- The discipline the spec asserts of an entry point's trace: its first
cache interaction is a read. -/
def firstChecksCache {V : Type} (ops : List (CacheOp V)) : Prop :=
  ∃ key rest, ops = CacheOp.get key :: rest

structure TeamMetricsBundle where
  velocity : ℚ
  quality : QualityMetrics
  efficiency : EfficiencyMetrics
  health : TeamHealth
  trends : Trends
deriving DecidableEq, Repr

/-- calculate_team_metrics paired with the list of cache operations its
body performs: it only invokes the five calculators and builds the
bundle, so the trace is empty. -/
def calculate_team_metrics (db : DB) (team_id : String)
    (start_date end_date : Option Int) :
    TeamMetricsBundle × List (CacheOp TeamMetricsBundle) :=
  ({ velocity := calculate_velocity db team_id start_date end_date
     quality := calculate_quality_metrics db team_id
     efficiency := calculate_efficiency_metrics db team_id
     health := calculate_team_health db team_id
     trends := calculate_trends db team_id }, [])

structure SprintMetricsBundle where
  completion_rate : ℚ
  velocity : ℚ
  quality_score : ℚ
  burndown : BurndownData
  team_satisfaction : ℚ
deriving Repr

/-- calculate_sprint_metrics with its (empty) cache-operation trace. -/
def calculate_sprint_metrics (db : DB) (sprint_id : String) :
    SprintMetricsBundle × List (CacheOp SprintMetricsBundle) :=
  ({ completion_rate := calculate_completion_rate db sprint_id
     velocity := calculate_sprint_velocity db sprint_id
     quality_score := calculate_quality_score db sprint_id
     burndown := generate_burndown_data db sprint_id
     team_satisfaction := calculate_team_satisfaction db sprint_id }, [])

structure TaskMetricsBundle where
  cycle_time : ℚ
  quality_score : ℚ
  complexity : ℚ
  rework_rate : ℚ
deriving DecidableEq, Repr

/-- calculate_task_metrics with its (empty) cache-operation trace. -/
def calculate_task_metrics (db : DB) (task_id : String) :
    TaskMetricsBundle × List (CacheOp TaskMetricsBundle) :=
  ({ cycle_time := calculate_cycle_time db task_id
     quality_score := calculate_task_quality db task_id
     complexity := calculate_task_complexity db task_id
     rework_rate := calculate_rework_rate db task_id }, [])

/-! ## Team workload caching
(app/agents/task_management_agent._get_team_workload) -/

/-- The TaskPriority enum values, keys of the initial priority buckets. -/
def taskPriorityValues : List String := ["critical", "high", "medium", "low"]

/-- The TaskType enum values, keys of the initial type buckets. -/
def taskTypeValues : List String :=
  ["feature", "bug", "tech_debt", "documentation", "research", "maintenance"]

/-- A task as the board service returns it to the agent. -/
structure AgentTask where
  assignee : Option String
  story_points : ℚ
  priority : String
  type : String
deriving DecidableEq, Repr

structure WorkloadEntry where
  assigned_points : ℚ
  task_count : Nat
  tasks_by_priority : List (String × Nat)
  tasks_by_type : List (String × Nat)
deriving DecidableEq, Repr

/-- Increment the bucket of a key that is present; a key outside the
enum values would raise KeyError in the source, a case no property below
reaches. -/
def bumpBucket (l : List (String × Nat)) (key : String) : List (String × Nat) :=
  l.map (fun p => if p.1 == key then (p.1, p.2 + 1) else p)

/-- The fresh per-assignee record with zeroed counters and buckets. -/
def emptyWorkloadEntry : WorkloadEntry :=
  { assigned_points := 0, task_count := 0
    tasks_by_priority := taskPriorityValues.map (fun v => (v, 0))
    tasks_by_type := taskTypeValues.map (fun v => (v, 0)) }

/-- Adding one task to an assignee record: points, count, buckets. -/
def addTaskToEntry (e : WorkloadEntry) (t : AgentTask) : WorkloadEntry :=
  { assigned_points := e.assigned_points + t.story_points
    task_count := e.task_count + 1
    tasks_by_priority := bumpBucket e.tasks_by_priority t.priority
    tasks_by_type := bumpBucket e.tasks_by_type t.type }

/-- The workload dict keyed by assignee id, in insertion order. -/
abbrev TeamWorkload := List (String × WorkloadEntry)

/-- The aggregation loop of _get_team_workload: tasks without an
assignee are skipped, a first-seen assignee gets a fresh record, and the
task is added to its assignee's record. -/
def computeWorkload (team_tasks : List AgentTask) : TeamWorkload :=
  team_tasks.foldl (fun acc t =>
    match t.assignee with
    | none => acc
    | some a =>
      let ensured := if acc.any (fun p => p.1 == a) then acc
        else acc ++ [(a, emptyWorkloadEntry)]
      ensured.map (fun p => if p.1 == a then (p.1, addTaskToEntry p.2 t) else p)) []

/-- _get_team_workload: read team_workload:{team_id} from the cache and
return a truthy hit as is; otherwise aggregate the board tasks and cache
the result with expire = 60*15 seconds before returning it. The second
component records the cache operations performed, in order. -/
def get_team_workload (cache : String → Option TeamWorkload)
    (team_tasks : List AgentTask) (team_id : String) :
    TeamWorkload × List (CacheOp TeamWorkload) :=
  match cache ("team_workload:" ++ team_id) with
  | some cached =>
    if cached = [] then
      (computeWorkload team_tasks,
        [CacheOp.get ("team_workload:" ++ team_id),
         CacheOp.set ("team_workload:" ++ team_id) (computeWorkload team_tasks) (60 * 15)])
    else (cached, [CacheOp.get ("team_workload:" ++ team_id)])
  | none =>
    (computeWorkload team_tasks,
      [CacheOp.get ("team_workload:" ++ team_id),
       CacheOp.set ("team_workload:" ++ team_id) (computeWorkload team_tasks) (60 * 15)])

/-! ## Alert evaluator (app/utils/metric_alerts.py)

An alert record keeps the rule type and severity; the formatted message
string and the metrics snapshot payload carry no further information used
by any property below and are elided. -/

structure Alert where
  atype : String
  severity : String
deriving DecidableEq, Repr

/-- The alert_thresholds dictionary built in MetricAlertManager.__init__. -/
structure AlertThresholds where
  velocity_drop : ℚ
  high_rework_rate : ℚ
  low_test_coverage : ℚ
  review_time_exceeded : ℚ
  team_health_critical : ℚ
deriving Repr

def defaultThresholds : AlertThresholds :=
  { velocity_drop := 20
    high_rework_rate := 3/10
    low_test_coverage := 80
    review_time_exceeded := 48
    team_health_critical := 6/10 }

/-- MetricAlertManager.check_velocity_alerts: when the historical velocity
is positive, compute the relative drop and emit one high severity alert if
it exceeds the velocity_drop threshold. -/
def check_velocity_alerts (th : AlertThresholds)
    (current_velocity historical_velocity : ℚ) : List Alert :=
  if 0 < historical_velocity then
    let velocity_drop := (historical_velocity - current_velocity) / historical_velocity * 100
    if th.velocity_drop < velocity_drop then
      [{ atype := "velocity_drop", severity := "high" }]
    else []
  else []

/-- The quality_metrics dictionary passed to check_quality_alerts; either
key may be absent. -/
structure QualityMetricsMap where
  test_coverage : Option ℚ
  rework_rate : Option ℚ
deriving Repr

/-- MetricAlertManager.check_quality_alerts: the source reads
quality_metrics with bracket access, so a missing key raises KeyError;
this is modelled in the Except monad, in source evaluation order
(test_coverage is read before rework_rate). -/
def check_quality_alerts (th : AlertThresholds) (qm : QualityMetricsMap) :
    Except String (List Alert) :=
  match qm.test_coverage with
  | none => Except.error "KeyError: test_coverage"
  | some tc =>
    let alerts₁ := if tc < th.low_test_coverage then
        [{ atype := "low_test_coverage", severity := "medium" }] else []
    match qm.rework_rate with
    | none => Except.error "KeyError: rework_rate"
    | some rr =>
      let alerts₂ := if th.high_rework_rate < rr then
          [{ atype := "high_rework_rate", severity := "high" }] else []
      Except.ok (alerts₁ ++ alerts₂)

/-- A quality-metrics map missing the test_coverage key. -/
def qmMissingCoverage : QualityMetricsMap :=
  { test_coverage := none, rework_rate := some 0 }

/-! ## Theorems for the alert evaluator -/

/-- C4: the velocity-drop rule fires only when historical velocity is
positive, computes the drop as (historical - current) / historical * 100,
and emits exactly one high severity alert exactly when the drop exceeds
the 20 percent threshold; current 50 against historical 100 yields the
alert, current 95 against historical 100 yields none. -/
theorem velocity_drop_rule (cur hist : ℚ) :
    (hist ≤ 0 → check_velocity_alerts defaultThresholds cur hist = []) ∧
    (0 < hist →
      (20 < (hist - cur) / hist * 100 →
        check_velocity_alerts defaultThresholds cur hist =
          [{ atype := "velocity_drop", severity := "high" }]) ∧
      (¬ 20 < (hist - cur) / hist * 100 →
        check_velocity_alerts defaultThresholds cur hist = [])) ∧
    check_velocity_alerts defaultThresholds 50 100 =
      [{ atype := "velocity_drop", severity := "high" }] ∧
    check_velocity_alerts defaultThresholds 95 100 = [] := by
  have hskip : ∀ c h : ℚ, h ≤ 0 → check_velocity_alerts defaultThresholds c h = [] := by
    intro c h hh
    simp [check_velocity_alerts, not_lt.mpr hh]
  have hfire : ∀ c h : ℚ, 0 < h → 20 < (h - c) / h * 100 →
      check_velocity_alerts defaultThresholds c h =
        [{ atype := "velocity_drop", severity := "high" }] := by
    intro c h hh hd
    simp [check_velocity_alerts, hh, defaultThresholds, hd]
  have hnone : ∀ c h : ℚ, 0 < h → ¬ 20 < (h - c) / h * 100 →
      check_velocity_alerts defaultThresholds c h = [] := by
    intro c h hh hd
    simp [check_velocity_alerts, hh, defaultThresholds, hd]
  exact ⟨hskip cur hist, fun hp => ⟨hfire cur hist hp, hnone cur hist hp⟩,
    hfire 50 100 (by norm_num) (by norm_num), hnone 95 100 (by norm_num) (by norm_num)⟩

theorem velocity_drop_rule_witness :
    check_velocity_alerts defaultThresholds 50 100 =
      [{ atype := "velocity_drop", severity := "high" }] :=
  ((velocity_drop_rule 50 100).2.1 (by norm_num)).1 (by norm_num)

/-- C2 counterexample: quality alert evaluation raises KeyError when the
quality-metrics map lacks the test_coverage key, instead of skipping the
rule and returning a list of alerts from the remaining rules. -/
theorem alert_missing_input_counterexample :
    check_quality_alerts defaultThresholds qmMissingCoverage =
      Except.error "KeyError: test_coverage" ∧
    ¬ ∃ alerts : List Alert,
        check_quality_alerts defaultThresholds qmMissingCoverage = Except.ok alerts := by
  refine ⟨rfl, ?_⟩
  rintro ⟨alerts, h⟩
  simp [check_quality_alerts, qmMissingCoverage] at h

/-- C2 amended: velocity alert evaluation never raises and skips the drop
rule when the historical baseline is absent or nonpositive, and quality
alert evaluation returns an alert list when both required keys are
present; but a quality-metrics map missing test_coverage, or missing
rework_rate, raises KeyError. -/
theorem alert_missing_input_behavior (th : AlertThresholds)
    (cur hist : ℚ) (qm : QualityMetricsMap) :
    (hist ≤ 0 → check_velocity_alerts th cur hist = []) ∧
    (∀ tc rr, qm.test_coverage = some tc → qm.rework_rate = some rr →
      ∃ alerts : List Alert, check_quality_alerts th qm = Except.ok alerts) ∧
    (qm.test_coverage = none →
      check_quality_alerts th qm = Except.error "KeyError: test_coverage") ∧
    (∀ tc, qm.test_coverage = some tc → qm.rework_rate = none →
      check_quality_alerts th qm = Except.error "KeyError: rework_rate") := by
  obtain ⟨qtc, qrr⟩ := qm
  refine ⟨?_, ?_, ?_, ?_⟩
  · intro h
    simp [check_velocity_alerts, not_lt.mpr h]
  · intro tc rr htc hrr
    simp only at htc hrr
    subst htc
    subst hrr
    exact ⟨_, rfl⟩
  · intro h
    simp only at h
    subst h
    rfl
  · intro tc htc hrr
    simp only at htc hrr
    subst htc
    subst hrr
    rfl

theorem alert_missing_input_behavior_witness :
    ∃ alerts : List Alert,
      check_quality_alerts defaultThresholds
        { test_coverage := some 90, rework_rate := some 0 } = Except.ok alerts :=
  (alert_missing_input_behavior defaultThresholds 0 0
      { test_coverage := some 90, rework_rate := some 0 }).2.1 90 0 rfl rfl

/-! ## Theorems for the per-task and per-sprint calculators -/

/-- C6: for every sprint the completion rate is completed_points /
planned_points * 100, is 0 when planned_points is 0, and exceeds 100
whenever completed_points exceeds a positive planned_points (no upper
clamp). -/
theorem completion_rate_spec (db : DB) (sid : String) (s : Sprint)
    (hfind : findSprint db sid = some s) :
    (s.planned_points = 0 → calculate_completion_rate db sid = 0) ∧
    (s.planned_points ≠ 0 →
      calculate_completion_rate db sid = s.completed_points / s.planned_points * 100) ∧
    (0 < s.planned_points → s.planned_points < s.completed_points →
      100 < calculate_completion_rate db sid) := by
  refine ⟨?_, ?_, ?_⟩
  · intro h0
    unfold calculate_completion_rate
    rw [hfind]
    simp [h0]
  · intro hne
    unfold calculate_completion_rate
    rw [hfind]
    simp [hne]
  · intro hp hlt
    unfold calculate_completion_rate
    rw [hfind]
    show 100 < if s.planned_points = 0 then 0
      else s.completed_points / s.planned_points * 100
    rw [if_neg (ne_of_gt hp)]
    have h1 : (1 : ℚ) < s.completed_points / s.planned_points :=
      (one_lt_div hp).mpr hlt
    linarith

def C6sprint : Sprint :=
  { id := "s6", team_id := "t6", status := SprintStatus.completed
    start_date := 0, end_date := 13
    planned_points := 10, completed_points := 15, velocity := 0 }

def C6db : DB := { tasks := [], sprints := [C6sprint], teams := [] }

theorem completion_rate_spec_witness :
    calculate_completion_rate C6db "s6" = 150 ∧
    100 < calculate_completion_rate C6db "s6" := by
  have h := completion_rate_spec C6db "s6" C6sprint rfl
  constructor
  · rw [h.2.1 (by norm_num [C6sprint])]
    norm_num [C6sprint]
  · exact h.2.2 (by norm_num [C6sprint]) (by norm_num [C6sprint])

/-- C7: for a task with nonnegative story points, complexity equals the
weighted sum clamped to [0, 100], and stays in [0, 100] for arbitrary
dependency and comment counts. -/
theorem task_complexity_bounds (db : DB) (tid : String) (t : Task)
    (hfind : findTask db tid = some t) (hsp : 0 ≤ t.story_points) :
    calculate_task_complexity db tid = max 0 (min 100 (task_complexity_raw t)) ∧
    0 ≤ calculate_task_complexity db tid ∧
    calculate_task_complexity db tid ≤ 100 := by
  have hraw : 0 ≤ task_complexity_raw t := by
    unfold task_complexity_raw
    have ha : (0 : ℚ) ≤ t.story_points / 13 * 50 :=
      mul_nonneg (div_nonneg hsp (by norm_num)) (by norm_num)
    have hb : (0 : ℚ) ≤ (t.dependencies.length : ℚ) / 5 * 25 := by positivity
    have hc : (0 : ℚ) ≤ ((t.metrics.review_comments.getD []).length : ℚ) / 10 * 25 := by
      positivity
    linarith
  have heq : calculate_task_complexity db tid = min 100 (task_complexity_raw t) := by
    unfold calculate_task_complexity
    rw [hfind]
  have hmin : (0 : ℚ) ≤ min 100 (task_complexity_raw t) :=
    le_min (by norm_num) hraw
  refine ⟨?_, ?_, ?_⟩
  · rw [heq, max_eq_right hmin]
  · rw [heq]
    exact hmin
  · rw [heq]
    exact min_le_left _ _

def C7task : Task :=
  { id := "t7", team_id := "T", sprint_id := none, assignee_id := none
    status := TaskStatus.done, type := "feature", priority := "high"
    story_points := 20
    dependencies := ["d1", "d2", "d3", "d4", "d5", "d6"]
    metrics := { review_time := none, bug_count := none, test_coverage := none
                 review_comments := some ["a","b","c","d","e","f","g","h","i","j","k"] }
    history := [], created_at := 0, updated_at := 0 }

def C7db : DB := { tasks := [C7task], sprints := [], teams := [] }

theorem task_complexity_bounds_witness :
    0 ≤ calculate_task_complexity C7db "t7" ∧
    calculate_task_complexity C7db "t7" ≤ 100 :=
  (task_complexity_bounds C7db "t7" C7task rfl (by norm_num [C7task])).2

/-- C8: for every task found, the rework rate is max(0, transitions into
in_progress - 1); one transition gives 0, two give 1, an empty history
gives 0. -/
theorem rework_rate_spec (db : DB) (tid : String) (t : Task)
    (hfind : findTask db tid = some t) :
    calculate_rework_rate db tid =
      ((max 0 ((status_to_in_progress_count t : ℤ) - 1) : ℤ) : ℚ) ∧
    (status_to_in_progress_count t = 1 → calculate_rework_rate db tid = 0) ∧
    (status_to_in_progress_count t = 2 → calculate_rework_rate db tid = 1) ∧
    (t.history = [] → calculate_rework_rate db tid = 0) := by
  have heq : calculate_rework_rate db tid =
      ((max 0 ((status_to_in_progress_count t : ℤ) - 1) : ℤ) : ℚ) := by
    unfold calculate_rework_rate
    rw [hfind]
  refine ⟨heq, ?_, ?_, ?_⟩
  · intro h1
    rw [heq, h1]
    norm_num
  · intro h2
    rw [heq, h2]
    norm_num
  · intro hh
    have h0 : status_to_in_progress_count t = 0 := by
      simp [status_to_in_progress_count, hh]
    rw [heq, h0]
    norm_num

def C8task : Task :=
  { id := "t8", team_id := "T", sprint_id := none, assignee_id := none
    status := TaskStatus.in_progress, type := "feature", priority := "low"
    story_points := 3, dependencies := []
    metrics := { review_time := none, bug_count := none, test_coverage := none
                 review_comments := none }
    history :=
      [ { field := "status", old_value := "todo", new_value := "in_progress", timestamp := 1 }
        , { field := "status", old_value := "in_progress", new_value := "blocked", timestamp := 2 }
        , { field := "status", old_value := "blocked", new_value := "in_progress", timestamp := 3 } ]
    created_at := 0, updated_at := 0 }

def C8db : DB := { tasks := [C8task], sprints := [], teams := [] }

theorem rework_rate_spec_witness :
    calculate_rework_rate C8db "t8" = 1 :=
  (rework_rate_spec C8db "t8" C8task rfl).2.2.1 (by decide)

def C1sprint : Sprint :=
  { id := "s1", team_id := "t1", status := SprintStatus.active
    start_date := 0, end_date := 1
    planned_points := 10, completed_points := 0, velocity := 0 }

def C1db : DB := { tasks := [], sprints := [C1sprint], teams := [] }

/-- C1 counterexample: for the two-day sprint s1 the ideal series has 3
entries while the actual series has 2, so the three output arrays do not
all have equal length. -/
theorem burndown_equal_length_counterexample :
    (generate_burndown_data C1db "s1").ideal.length ≠
      (generate_burndown_data C1db "s1").actual.length := by
  have h1 : (generate_burndown_data C1db "s1").ideal.length = 3 := rfl
  have h2 : (generate_burndown_data C1db "s1").actual.length = 2 := rfl
  rw [h1, h2]
  decide

/-- C1 amended: for every sprint found, the actual series and the dates
array have length (end_date - start_date).days + 1, while the ideal
series has one more entry, (end_date - start_date).days + 2, because it
ranges over range(duration + 1) with duration already the day count plus
one. -/
theorem burndown_series_lengths (db : DB) (sid : String) (s : Sprint)
    (hfind : findSprint db sid = some s)
    (hle : s.start_date ≤ s.end_date) :
    (generate_burndown_data db sid).actual.length =
      (s.end_date - s.start_date).toNat + 1 ∧
    (generate_burndown_data db sid).dates.length =
      (s.end_date - s.start_date).toNat + 1 ∧
    (generate_burndown_data db sid).ideal.length =
      (s.end_date - s.start_date).toNat + 2 := by
  simp only [generate_burndown_data, hfind, dateRange,
    List.length_map, List.length_range]
  omega

theorem burndown_series_lengths_witness :
    (generate_burndown_data C1db "s1").actual.length = 2 ∧
    (generate_burndown_data C1db "s1").dates.length = 2 ∧
    (generate_burndown_data C1db "s1").ideal.length = 3 :=
  burndown_series_lengths C1db "s1" C1sprint rfl (by norm_num [C1sprint])

def C9task : Task :=
  { id := "t9", team_id := "T9", sprint_id := none, assignee_id := none
    status := TaskStatus.done, type := "feature", priority := "medium"
    story_points := 5, dependencies := []
    metrics := { review_time := none, bug_count := none, test_coverage := none
                 review_comments := none }
    history := [], created_at := 0, updated_at := 3600 }

def C9db : DB := { tasks := [C9task], sprints := [], teams := [] }

/-- C9 counterexample: a team with one done task created and completed
within the same day has zero spanned days; the source replaces the zero
quotient 0/7 with one week, so throughput is 1 task per week, not the
7 the claimed max(1, days)/7 weeks would give. -/
theorem throughput_weeks_counterexample :
    (calculate_efficiency_metrics C9db "T9").throughput ≠
      ((doneTeamTasks C9db "T9").length : ℚ) /
        (((max 1 (effDays C9db "T9") : ℤ) : ℚ) / 7) := by
  have hdt : doneTeamTasks C9db "T9" = [C9task] := rfl
  have hd : effDays C9db "T9" = 0 := rfl
  have hthr : (calculate_efficiency_metrics C9db "T9").throughput =
      ((1 : ℕ) : ℚ) / effWeeks C9db "T9" := by
    unfold calculate_efficiency_metrics
    rw [hdt]
    rfl
  have hw : effWeeks C9db "T9" = 1 := by
    unfold effWeeks
    rw [hd]
    norm_num
  rw [hthr, hw, hdt]
  have hmax : (max 1 (effDays C9db "T9") : ℤ) = 1 := by
    rw [hd]
    decide
  rw [hmax]
  norm_num

/-- C9 amended: for a team with done tasks, throughput is the done-task
count divided by total weeks, where total weeks is days/7 for a nonzero
day span but is replaced by 1 (one week, not 1/7 of a week) when the day
span is 0, days being the floored day difference between the earliest
creation and the latest completion. -/
theorem throughput_formula (db : DB) (tid : String)
    (h : doneTeamTasks db tid ≠ []) :
    (calculate_efficiency_metrics db tid).throughput =
      ((doneTeamTasks db tid).length : ℚ) / effWeeks db tid ∧
    (effDays db tid = 0 →
      (calculate_efficiency_metrics db tid).throughput =
        ((doneTeamTasks db tid).length : ℚ)) ∧
    (effDays db tid ≠ 0 →
      (calculate_efficiency_metrics db tid).throughput =
        ((doneTeamTasks db tid).length : ℚ) / ((effDays db tid : ℚ) / 7)) := by
  cases hck : doneTeamTasks db tid with
  | nil => exact absurd hck h
  | cons t ts =>
    have hthr : (calculate_efficiency_metrics db tid).throughput =
        (((t :: ts).length : ℕ) : ℚ) / effWeeks db tid := by
      unfold calculate_efficiency_metrics
      rw [hck]
    refine ⟨by rw [hthr], ?_, ?_⟩
    · intro h0
      have hw : effWeeks db tid = 1 := by
        unfold effWeeks
        rw [h0]
        norm_num
      rw [hthr, hw, div_one]
    · intro hne
      have hc : ¬ ((effDays db tid : ℚ) / 7 = 0) := by
        rw [div_eq_zero_iff]
        push_neg
        refine ⟨?_, by norm_num⟩
        exact_mod_cast hne
      have hw : effWeeks db tid = (effDays db tid : ℚ) / 7 := by
        unfold effWeeks
        rw [if_neg hc]
      rw [hthr, hw]

theorem throughput_formula_witness :
    (calculate_efficiency_metrics C9db "T9").throughput =
      ((doneTeamTasks C9db "T9").length : ℚ) :=
  (throughput_formula C9db "T9" (by decide)).2.1 rfl

def C10team : Team := { id := "tm", member_ids := ["u1", "u2"] }

def C10sprint : Sprint :=
  { id := "s10", team_id := "tm", status := SprintStatus.completed
    start_date := 0, end_date := 10
    planned_points := 10, completed_points := 5, velocity := 0 }

def C10db : DB := { tasks := [], sprints := [C10sprint], teams := [C10team] }

/-- C10: for every team found, team_stability is the constant 100 (the
historical member total is just the current member count, so the ratio is
1 whenever the count is nonzero and the falsy fallback is also 1), hence
member_satisfaction is completion ratio * 0.7 * 100 + 30. -/
theorem team_health_stability_constant (db : DB) (tid : String) (team : Team)
    (hfind : findTeam db tid = some team) :
    (calculate_team_health db tid).team_stability = 100 ∧
    (calculate_team_health db tid).member_satisfaction =
      sprintCompletionRatio db team * 0.7 * 100 + 30 := by
  have hstab : (if ((team.member_ids.length : ℚ)) ≠ 0
      then (team.member_ids.length : ℚ) / (team.member_ids.length : ℚ)
      else 1) = 1 := by
    by_cases hz : ((team.member_ids.length : ℚ)) = 0
    · simp [hz]
    · simp [hz, div_self hz]
  have h1 : (calculate_team_health db tid).team_stability =
      (if ((team.member_ids.length : ℚ)) ≠ 0
        then (team.member_ids.length : ℚ) / (team.member_ids.length : ℚ)
        else 1) * 100 := by
    unfold calculate_team_health
    rw [hfind]
  have h2 : (calculate_team_health db tid).member_satisfaction =
      (sprintCompletionRatio db team * 0.7 +
        (if ((team.member_ids.length : ℚ)) ≠ 0
          then (team.member_ids.length : ℚ) / (team.member_ids.length : ℚ)
          else 1) * 0.3) * 100 := by
    unfold calculate_team_health
    rw [hfind]
  constructor
  · rw [h1, hstab]
    norm_num
  · rw [h2, hstab]
    ring

theorem team_health_stability_constant_witness :
    (calculate_team_health C10db "tm").team_stability = 100 ∧
    (calculate_team_health C10db "tm").member_satisfaction = 65 := by
  have h := team_health_stability_constant C10db "tm" C10team rfl
  refine ⟨h.1, ?_⟩
  rw [h.2]
  have hfil : (teamSprints C10db C10team.id).filter
      (fun s => s.status == SprintStatus.completed) = [C10sprint] := rfl
  have hr : sprintCompletionRatio C10db C10team =
      ((if (10 : ℚ) = 0 then 0 else (5 : ℚ) / 10) + 0) / ((1 : ℕ) : ℚ) := by
    unfold sprintCompletionRatio
    rw [hfil]
    rfl
  rw [hr]
  norm_num

def C5sprintOld : Sprint :=
  { id := "sO", team_id := "T5", status := SprintStatus.completed
    start_date := 0, end_date := 9
    planned_points := 20, completed_points := 20, velocity := 0 }

def C5sprintNew : Sprint :=
  { id := "sN", team_id := "T5", status := SprintStatus.completed
    start_date := 10, end_date := 20
    planned_points := 10, completed_points := 10, velocity := 0 }

def C5db : DB := { tasks := [], sprints := [C5sprintOld, C5sprintNew], teams := [] }

/-- C5 counterexample: with a window of two completed sprints, the newer
with velocity 10 and the older with velocity 20, the source computes
trend = (10 - 20)/2 = -5, but (oldest - newest)/count as claimed is
(20 - 10)/2 = 5. -/
theorem velocity_trend_sign_counterexample :
    (calculate_velocity_stability C5db "T5").trend ≠
      ((velocitiesWindow C5db "T5").getLastD 0 - (velocitiesWindow C5db "T5").headD 0) /
        ((velocitiesWindow C5db "T5").length : ℚ) := by
  have hv : velocitiesWindow C5db "T5" = [(10 : ℚ), 20] := rfl
  have hnil : ¬ (completedSprintsWindow C5db "T5" = []) := by decide
  have ht : (calculate_velocity_stability C5db "T5").trend =
      ((10 : ℚ) - 20) / ((2 : ℕ) : ℚ) := by
    unfold calculate_velocity_stability
    rw [if_neg hnil]
    rfl
  rw [hv, ht]
  have h2 : ([(10 : ℚ), 20].getLastD 0 - [(10 : ℚ), 20].headD 0) /
      (([(10 : ℚ), 20].length : ℕ) : ℚ) = ((20 : ℚ) - 10) / ((2 : ℕ) : ℚ) := rfl
  rw [h2]
  norm_num

/-- C5 amended: with more than one completed sprint in the window, the
trend is (newest_velocity - oldest_velocity) / count, the window being
ordered newest first; a positive trend therefore means velocity is
increasing across the window. -/
theorem velocity_trend_formula (db : DB) (tid : String)
    (h : 1 < (velocitiesWindow db tid).length) :
    (calculate_velocity_stability db tid).trend =
      ((velocitiesWindow db tid).headD 0 - (velocitiesWindow db tid).getLastD 0) /
        ((velocitiesWindow db tid).length : ℚ) ∧
    ((velocitiesWindow db tid).getLastD 0 < (velocitiesWindow db tid).headD 0 →
      0 < (calculate_velocity_stability db tid).trend) := by
  have hnil : ¬ (completedSprintsWindow db tid = []) := by
    intro h0
    unfold velocitiesWindow at h
    rw [h0] at h
    simp at h
  have ht : (calculate_velocity_stability db tid).trend =
      if 1 < (velocitiesWindow db tid).length then
        ((velocitiesWindow db tid).headD 0 - (velocitiesWindow db tid).getLastD 0) /
          ((velocitiesWindow db tid).length : ℚ)
      else 0 := by
    unfold calculate_velocity_stability
    rw [if_neg hnil]
  refine ⟨by rw [ht, if_pos h], ?_⟩
  intro hlt
  rw [ht, if_pos h]
  have hlen : (0 : ℚ) < ((velocitiesWindow db tid).length : ℚ) := by
    have : 0 < (velocitiesWindow db tid).length := by omega
    exact_mod_cast this
  exact div_pos (by linarith) hlen

theorem velocity_trend_formula_witness :
    (calculate_velocity_stability C5db "T5").trend =
      ((velocitiesWindow C5db "T5").headD 0 - (velocitiesWindow C5db "T5").getLastD 0) /
        ((velocitiesWindow C5db "T5").length : ℚ) :=
  (velocity_trend_formula C5db "T5" (by decide)).1

def C3db : DB := { tasks := [], sprints := [], teams := [] }

/-- C3 counterexample: at concrete inputs, none of the three
metric-bundle entry points performs any cache operation, so in
particular none of them first checks the cache under any key before
invoking the calculators. -/
theorem metric_bundle_cache_counterexample :
    ¬ firstChecksCache (calculate_team_metrics C3db "T" none none).2 ∧
    ¬ firstChecksCache (calculate_sprint_metrics C3db "s").2 ∧
    ¬ firstChecksCache (calculate_task_metrics C3db "t").2 := by
  refine ⟨?_, ?_, ?_⟩ <;>
  · rintro ⟨key, rest, hk⟩
    simp [calculate_team_metrics, calculate_sprint_metrics,
      calculate_task_metrics] at hk

/-- C3 amended: the three metric-bundle entry points invoke the
calculators directly and never touch the cache (their traces are empty).
Cache-first lookup with a TTL exists instead in the task agent's
team-workload helper: it reads the fixed key team_workload:{team_id}
(a prefix plus the id, not a key built from the function name and all
non-null parameters in sorted order), returns a truthy cached value as
is, and on a miss computes the workload, stores it under that key with a
15-minute (900 second) TTL, and returns it. -/
theorem metric_bundle_caching (db : DB) (team_id sprint_id task_id : String)
    (sd ed : Option Int) (cache : String → Option TeamWorkload)
    (team_tasks : List AgentTask) :
    (calculate_team_metrics db team_id sd ed).2 = [] ∧
    (calculate_sprint_metrics db sprint_id).2 = [] ∧
    (calculate_task_metrics db task_id).2 = [] ∧
    (∀ c, cache ("team_workload:" ++ team_id) = some c → c ≠ [] →
      get_team_workload cache team_tasks team_id =
        (c, [CacheOp.get ("team_workload:" ++ team_id)])) ∧
    (cache ("team_workload:" ++ team_id) = none →
      get_team_workload cache team_tasks team_id =
        (computeWorkload team_tasks,
          [CacheOp.get ("team_workload:" ++ team_id),
           CacheOp.set ("team_workload:" ++ team_id)
             (computeWorkload team_tasks) 900])) := by
  refine ⟨rfl, rfl, rfl, ?_, ?_⟩
  · intro c hc hne
    unfold get_team_workload
    rw [hc]
    simp [hne]
  · intro hc
    unfold get_team_workload
    rw [hc]

def C3cache : String → Option TeamWorkload := fun _ => none

theorem metric_bundle_caching_witness :
    (calculate_team_metrics C3db "T" none none).2 = [] ∧
    get_team_workload C3cache [] "T" =
      (computeWorkload [],
        [CacheOp.get ("team_workload:" ++ "T"),
         CacheOp.set ("team_workload:" ++ "T") (computeWorkload []) 900]) :=
  ⟨(metric_bundle_caching C3db "T" "s" "t" none none C3cache []).1,
   (metric_bundle_caching C3db "T" "s" "t" none none C3cache []).2.2.2.2 rfl⟩

end Management
